import Mathlib

/-!
Shallow embedding of the conversation-session controller implemented in
`src/App.jsx` (plus the document controls in
`src/components/ChatInterface.jsx` and `src/components/ConversationList.jsx`)
of the `faiproject` frontend.

The React component state (the `useState` slots of `App`) is modelled as a
record `AppState`.  Each event handler is modelled as a function from the
pre-state to a post-state, parametrised by an *environment* record that fixes
the outcome of every backend call the handler performs (axios success payload,
or the shape of the thrown error).  Handlers additionally return the list of
backend requests they issued, so that "no request is issued" and "the request
carries field X" are statable.

JavaScript conventions that matter are modelled explicitly:
  * `axios` errors are classified by the code via `err.response` /
    `err.request` / otherwise; this three-way shape is the type `AxiosErr`.
  * falsy-string tests (`!conversationId`, `if (documentContext)`,
    `a || b`) treat both `null`/`undefined` (here `Option.none`) and the
    empty string as false; see `jsTruthyS` and `jsOrS`.
  * `setX(v)` state-setter calls are modelled as record updates applied in
    program order.  The `useEffect` hooks of the component (history reload on
    id change, `hasStartedConversation` derivation) run outside the handler
    bodies and are not part of these functions.
-/

/-- A chat message as stored in `conversationHistory` (wire data from the
backend; the client never inspects its fields, only stores the list). -/
structure Message where
  role : String
  content : String
  deriving Repr, DecidableEq

/-- A document catalog entry (`availableDocuments` elements); the handlers
use `document_id` and `filename`. -/
structure Document where
  document_id : String
  filename : String
  deriving Repr, DecidableEq

/-- One web-search result (`title`, `url`, `description`). -/
structure SearchResult where
  title : String
  url : String
  description : String
  deriving Repr, DecidableEq

/-- One chain-of-thought step as returned by the backend. -/
structure ReasoningStep where
  step_number : Nat
  description : String
  action : String
  content : String
  sources_used : List String
  deriving Repr, DecidableEq

/-- A conversation-catalog summary (`allConversations` elements). -/
structure ConvSummary where
  id : String
  title : String
  deriving Repr, DecidableEq

/-- The file selected for upload (`file` slot); the code only reads its
name (and type) for logging. -/
structure UploadFile where
  name : String
  deriving Repr, DecidableEq

/-- The `useState` slots of the `App` component, in declaration order
(`src/App.jsx` lines 10-61).  `cacheStats` is omitted: it is only written by
`loadCacheStats` during bootstrap and by the cache-clear action, which none of
the modelled handlers touch. -/
structure AppState where
  prompt : String
  conversationId : Option String
  conversationHistory : List Message
  file : Option UploadFile
  docText : String
  includeSearch : Bool
  searchResults : Option (List SearchResult)
  availableDocuments : List Document
  selectedDocument : Option Document
  includeDocument : Bool
  enableChainOfThought : Bool
  reasoningDepth : Nat
  reasoningSteps : List ReasoningStep
  enableSourceAttribution : Bool
  sourcesUsed : List String
  enableChunking : Bool
  chunkSize : Nat
  allConversations : List ConvSummary
  showConversationList : Bool
  llmLoading : Bool
  docLoading : Bool
  searchLoading : Bool
  llmError : String
  docError : String
  searchError : String
  sidebarOpen : Bool
  toolsMenuOpen : Bool
  hasStartedConversation : Bool
  dragOver : Bool
  deriving Repr, DecidableEq

/-- The initial state: the `useState` initial values of `App`. -/
def initState : AppState where
  prompt := ""
  conversationId := none
  conversationHistory := []
  file := none
  docText := ""
  includeSearch := false
  searchResults := none
  availableDocuments := []
  selectedDocument := none
  includeDocument := false
  enableChainOfThought := false
  reasoningDepth := 3
  reasoningSteps := []
  enableSourceAttribution := true
  sourcesUsed := []
  enableChunking := true
  chunkSize := 2000
  allConversations := []
  showConversationList := false
  llmLoading := false
  docLoading := false
  searchLoading := false
  llmError := ""
  docError := ""
  searchError := ""
  sidebarOpen := false
  toolsMenuOpen := false
  hasStartedConversation := false
  dragOver := false

/-- Shape of a failed axios call as the catch blocks discriminate it:
`err.response` present (server answered with a non-success status, carrying
`data.detail` and `statusText`), else `err.request` present (sent, no
answer), else a plain thrown error with a `message`. -/
inductive AxiosErr where
  | response (detail : Option String) (statusText : String)
  | request
  | other (message : String)
  deriving Repr, DecidableEq

/-- Body of the `POST /api/llm` request (`src/App.jsx` lines 217-229).
`document_context` is present only when the resolved content is truthy. -/
structure LlmRequestBody where
  prompt : String
  conversation_id : String
  include_search : Bool
  enable_source_attribution : Bool
  enable_chain_of_thought : Bool
  reasoning_depth : Nat
  document_context : Option String
  deriving Repr, DecidableEq

/-- The backend requests a handler can issue, carrying the payload fields the
claims talk about. -/
inductive Request where
  | llm (body : LlmRequestBody)
  | search (query : String) (max_results : Nat)
  | getDocument (docId : String)
  | listDocuments
  | uploadDocument (filename : String) (enable_chunking : Bool) (chunk_size : Nat)
  | deleteDocument (docId : String)
  | listConversations
  | deleteConversation (convId : String)
  | autoTitle (convId : String)
  deriving Repr, DecidableEq

/-- JavaScript `String.prototype.trim()`: strip whitespace from both ends.
Written over the char list so that it is kernel-computable. -/
def jsTrim (s : String) : String :=
  ⟨((s.data.dropWhile Char.isWhitespace).reverse.dropWhile Char.isWhitespace).reverse⟩

/-- JavaScript truthiness of a nullable string: `null`/`undefined` and `""`
are falsy. -/
def jsTruthyS : Option String → Bool
  | none => false
  | some s => !(s = "")

/-- JavaScript `a || b` on a nullable string `a` and string `b`. -/
def jsOrS (a : Option String) (b : String) : String :=
  match a with
  | none => b
  | some s => if s = "" then b else s

/-- `conversation_${Date.now()}`. -/
def mkConvId (now : Nat) : String :=
  "conversation_" ++ toString now

/-- The catch block of `handlePromptSubmit` (`src/App.jsx` lines 268-278):
`err.response` → `Server error: ${detail || statusText}`, `err.request` →
fixed network message, otherwise `Request error: ${message}`. -/
def classifyLlmError : AxiosErr → String
  | .response detail statusText => "Server error: " ++ jsOrS detail statusText
  | .request => "Network error: Unable to reach server"
  | .other message => "Request error: " ++ message

/-- The catch block of `handleFileUpload` (`src/App.jsx` lines 518-528),
textually identical to the LLM one. -/
def classifyDocError : AxiosErr → String
  | .response detail statusText => "Server error: " ++ jsOrS detail statusText
  | .request => "Network error: Unable to reach server"
  | .other message => "Request error: " ++ message

/-- The catch block of `handleStandaloneSearch` (`src/App.jsx` lines
310-318): only `err.response` is discriminated; every other failure gets the
same fixed message. -/
def classifySearchError : AxiosErr → String
  | .response detail statusText => "Search error: " ++ jsOrS detail statusText
  | _ => "Search failed: Unable to reach server"

/-- State effect of `loadAllConversations` (`src/App.jsx` lines 144-155): on
success store the returned list, on its internally-caught error store `[]`.
`convs = none` models the caught error. -/
def loadAllConversationsFx (convs : Option (List ConvSummary)) (s : AppState) : AppState :=
  { s with allConversations := convs.getD [] }

/-- Payload of a successful `POST /api/llm` response; each field models the
corresponding optional field of `res.data`. -/
structure LlmResponse where
  updated_context : Option (List Message)
  search_results : Option (List SearchResult)
  reasoning_steps : Option (List ReasoningStep)
  sources_used : Option (List String)
  deriving Repr, DecidableEq

/-- Outcomes of the backend calls `handlePromptSubmit` can perform.
`docContent = none` models `getDocumentContent` returning `null` (its
internal catch, `src/App.jsx` lines 168-176) or a null content field. -/
structure LlmEnv where
  docContent : Option String
  llmResult : Except AxiosErr LlmResponse
  titleOk : Bool
  convsAfterTitle : Option (List ConvSummary)
  convsFinal : Option (List ConvSummary)

/-- The synchronous head of `handlePromptSubmit` (`src/App.jsx` lines
185-195): id synthesis when absent, then enter loading state and clear the
LLM error, search results, reasoning steps, sources and the tools menu.
This is the state in force when the backend calls are issued. -/
def promptSubmitPrelude (now : Nat) (s : AppState) : AppState :=
  let s1 := if jsTruthyS s.conversationId then s
            else { s with conversationId := some (mkConvId now) }
  { s1 with llmLoading := true, llmError := "", searchResults := none,
            reasoningSteps := [], sourcesUsed := [], toolsMenuOpen := false }

/-- The resolved document context (`src/App.jsx` lines 199-204): fetched
only when inclusion is enabled and a document is selected; `env.docContent`
is what `getDocumentContent` returned (`none` = its internal catch returned
`null`). -/
def llmDocumentContext (env : LlmEnv) (s : AppState) : Option String :=
  match s.includeDocument, s.selectedDocument with
  | true, some _ => env.docContent
  | _, _ => none

/-- The `POST /api/llm` body built at `src/App.jsx` lines 217-229;
`document_context` is added only when the resolved content is truthy. -/
def llmBodyFor (env : LlmEnv) (nowBody : Nat) (s : AppState) : LlmRequestBody :=
  { prompt := s.prompt
    conversation_id := jsOrS s.conversationId (mkConvId nowBody)
    include_search := s.includeSearch
    enable_source_attribution := s.enableSourceAttribution
    enable_chain_of_thought := s.enableChainOfThought
    reasoning_depth := s.reasoningDepth
    document_context :=
      if jsTruthyS (llmDocumentContext env s) then llmDocumentContext env s else none }

/-- The `try/catch/finally` of `handlePromptSubmit` (`src/App.jsx` lines
197-281).  `s` is the render state captured by the closure (all reads of
`prompt`, `conversationId`, flags, and the selected document come from it);
`s2` is the accumulated component state the setters have produced so far. -/
def promptSubmitRequestPhase (env : LlmEnv) (nowBody nowTitle : Nat) (s s2 : AppState) :
    AppState × List Request :=
    let cid := s.conversationId
    let docReqs : List Request :=
      match s.includeDocument, s.selectedDocument with
      | true, some d => [Request.getDocument d.document_id]
      | _, _ => []
    let body := llmBodyFor env nowBody s
    match env.llmResult with
    | .error e =>
        ({ s2 with llmError := classifyLlmError e, llmLoading := false },
         docReqs ++ [Request.llm body])
    | .ok resp =>
        let ctx := resp.updated_context.getD []
        let s3 := { s2 with conversationHistory := ctx }
        let s3 := match resp.search_results with
                  | some r => { s3 with searchResults := some r }
                  | none => s3
        let s3 := match resp.reasoning_steps with
                  | some r => { s3 with reasoningSteps := r }
                  | none => s3
        let s3 := match resp.sources_used with
                  | some u => { s3 with sourcesUsed := u }
                  | none => s3
        let titled : AppState × List Request :=
          if ctx.length = 2 then
            if env.titleOk then
              (loadAllConversationsFx env.convsAfterTitle s3,
               [Request.autoTitle (jsOrS cid (mkConvId nowTitle)), Request.listConversations])
            else
              (s3, [Request.autoTitle (jsOrS cid (mkConvId nowTitle))])
          else (s3, [])
        let s4 := { titled.1 with prompt := "" }
        let s5 := loadAllConversationsFx env.convsFinal s4
        ({ s5 with llmLoading := false },
         docReqs ++ [Request.llm body] ++ titled.2 ++ [Request.listConversations])

/-- `handlePromptSubmit` (`src/App.jsx` lines 181-282).  `now` is the
`Date.now()` of the id synthesized into state (line 186), `nowBody` the one
synthesized into the request body (line 219), `nowTitle` the one synthesized
for the title call (line 261); the three sites each call `Date.now()`. -/
def handlePromptSubmit (env : LlmEnv) (now nowBody nowTitle : Nat) (s : AppState) :
    AppState × List Request :=
  if jsTrim s.prompt = "" then (s, [])
  else promptSubmitRequestPhase env nowBody nowTitle s (promptSubmitPrelude now s)

/-- Payload of a successful `POST /api/search` response. -/
structure SearchResponse where
  results : List SearchResult
  deriving Repr, DecidableEq

/-- `handleStandaloneSearch` (`src/App.jsx` lines 296-322). -/
def handleStandaloneSearch (env : Except AxiosErr SearchResponse) (s : AppState) :
    AppState × List Request :=
  if jsTrim s.prompt = "" then (s, [])
  else
    let s1 := { s with searchLoading := true, searchError := "", searchResults := none }
    match env with
    | .ok resp =>
        ({ s1 with searchResults := some resp.results, searchLoading := false },
         [Request.search s.prompt 5])
    | .error e =>
        ({ s1 with searchError := classifySearchError e, searchLoading := false },
         [Request.search s.prompt 5])

/-- Outcomes of the backend calls `handleClearConversation` performs. -/
structure ClearEnv where
  deleteOk : Bool
  convs : Option (List ConvSummary)

/-- `handleClearConversation` (`src/App.jsx` lines 327-343).  The local
resets sit inside the `try`, after the `await axios.delete`; if the delete
throws, control jumps to the catch (a log) and none of them run. -/
def handleClearConversation (env : ClearEnv) (s : AppState) : AppState × List Request :=
  if jsTruthyS s.conversationId = false then (s, [])
  else
    let delReq := Request.deleteConversation (s.conversationId.getD "")
    if env.deleteOk then
      let s1 := { s with conversationHistory := [], prompt := "", llmError := "",
                         searchResults := none, reasoningSteps := [], sourcesUsed := [],
                         hasStartedConversation := false }
      (loadAllConversationsFx env.convs s1, [delReq, Request.listConversations])
    else
      (s, [delReq])

/-- JS `selectedDocument?.document_id === docId`. -/
def selectedMatches (sel : Option Document) (docId : String) : Bool :=
  match sel with
  | some d => d.document_id = docId
  | none => false

/-- Outcomes of the backend calls `handleDeleteDocument` performs; `docs`
is the result of the internally-caught `loadAvailableDocuments` refresh. -/
structure DeleteDocEnv where
  deleteOk : Bool
  docs : Option (List Document)

/-- `handleDeleteDocument` (`src/App.jsx` lines 535-546).  On a failed
delete the catch only logs. -/
def handleDeleteDocument (env : DeleteDocEnv) (docId : String) (s : AppState) :
    AppState × List Request :=
  if env.deleteOk then
    let s1 := { s with availableDocuments := env.docs.getD [] }
    let s2 := if selectedMatches s.selectedDocument docId then
                { s1 with selectedDocument := none, includeDocument := false }
              else s1
    (s2, [Request.deleteDocument docId, Request.listDocuments])
  else
    (s, [Request.deleteDocument docId])

/-- Outcomes of the backend calls `handleFileUpload` performs:
the multipart upload, the internally-caught `loadAvailableDocuments`
refresh, and the raw second `GET /api/documents` (which can throw into the
shared catch). -/
structure UploadEnv where
  uploadResult : Except AxiosErr String
  docsRefresh : Option (List Document)
  docsList : Except AxiosErr (List Document)

/-- `handleFileUpload` (`src/App.jsx` lines 484-532).  With no file
selected it sets the error slot and returns before any other effect.
`documents[documents.length - 1]` on the refetched list is `List.getLast?`
(an empty list yields `undefined`, skipping the auto-select). -/
def handleFileUpload (env : UploadEnv) (s : AppState) : AppState × List Request :=
  match s.file with
  | none => ({ s with docError := "Please select a file first" }, [])
  | some f =>
    let s1 := { s with docLoading := true, docError := "", docText := "" }
    let uploadReq := Request.uploadDocument f.name s.enableChunking s.chunkSize
    match env.uploadResult with
    | .error e =>
        ({ s1 with docError := classifyDocError e, docLoading := false }, [uploadReq])
    | .ok text =>
        let s2 := { s1 with docText := text, availableDocuments := env.docsRefresh.getD [] }
        match env.docsList with
        | .error e =>
            ({ s2 with docError := classifyDocError e, docLoading := false },
             [uploadReq, Request.listDocuments, Request.listDocuments])
        | .ok docs =>
            let s3 := match docs.getLast? with
                      | some latest =>
                          { s2 with selectedDocument := some latest, includeDocument := true }
                      | none => s2
            ({ s3 with docLoading := false },
             [uploadReq, Request.listDocuments, Request.listDocuments])

/-- The sidebar select-document button (`src/App.jsx` lines 1566-1575):
sets the selection and the inclusion flag together.
`ConversationList.jsx` carries an identical pair of setters (lines 362-366)
and `ChatInterface.jsx` an include-document checkbox (line 942) and a
document dropdown (lines 1022-1029), but neither is part of the composed
program: `ConversationManager` is imported yet never rendered by `App`, and
`App` does not pass `setIncludeDocument`, `setSelectedDocument` or
`availableDocuments` to `ChatInterface` (`src/App.jsx` lines 1744-1768), so
those controls cannot render or fire.  The sidebar button is therefore the
only live manual selection. -/
def selectDocumentButton (doc : Document) (s : AppState) : AppState :=
  { s with selectedDocument := some doc, includeDocument := true }

/-! The remaining state-mutating operations of `App.jsx`, modelled as plain
state transformers (their request traffic is not the subject of any claim).
`handleExportConversation` calls no state setter and `handleClearCache` only
rewrites the unmodelled `cacheStats` slot, so neither appears here. -/

/-- `initializeApp` (`src/App.jsx` lines 84-114): load the document and
conversation catalogs (each swallowing its own errors), then start a fresh
conversation; both branches of the `conversations.length` test and the outer
catch set the same fresh id and empty history. -/
def initializeApp (docs : Option (List Document)) (convs : Option (List ConvSummary))
    (now : Nat) (s : AppState) : AppState :=
  { loadAllConversationsFx convs { s with availableDocuments := docs.getD [] } with
    conversationId := some (mkConvId now), conversationHistory := [] }

/-- The `loadConversationHistory` effect (`src/App.jsx` lines 66-70 and
119-130), run after `conversationId` changes: store `res.data.messages || []`,
or `[]` from the catch.  `msgs = none` covers both the catch and a missing
`messages` field. -/
def loadConversationHistory (msgs : Option (List Message)) (s : AppState) : AppState :=
  { s with conversationHistory := msgs.getD [] }

/-- The `hasStartedConversation` effect (`src/App.jsx` lines 78-80). -/
def hasStartedConversationFx (s : AppState) : AppState :=
  { s with hasStartedConversation := decide (0 < s.conversationHistory.length) }

/-- `handleClearAllHistory` (`src/App.jsx` lines 346-372): without the
`window.confirm` approval it returns; on a successful delete-all it resets
catalog, history, prompt, error and panels and starts a fresh conversation;
a thrown delete reaches a log-only catch. -/
def handleClearAllHistory (confirmed : Bool) (deleteOk : Bool) (now : Nat)
    (s : AppState) : AppState :=
  if !confirmed then s
  else if deleteOk then
    { s with allConversations := [], conversationHistory := [], prompt := "",
             llmError := "", searchResults := none, reasoningSteps := [],
             sourcesUsed := [], hasStartedConversation := false,
             conversationId := some (mkConvId now) }
  else s

/-- `handleNewConversation` (`src/App.jsx` lines 375-396): refresh the
catalog when the current conversation has messages, then replace the session
with a fresh empty one; `mobile` is the `window.innerWidth <= 768` test. -/
def handleNewConversation (convs : Option (List ConvSummary)) (now : Nat)
    (mobile : Bool) (s : AppState) : AppState :=
  let s1 := if 0 < s.conversationHistory.length ∧ jsTruthyS s.conversationId = true
            then loadAllConversationsFx convs s else s
  let s2 := { s1 with conversationId := some (mkConvId now), conversationHistory := [],
                      prompt := "", llmError := "", searchResults := none,
                      reasoningSteps := [], sourcesUsed := [],
                      hasStartedConversation := false }
  if mobile then { s2 with sidebarOpen := false } else s2

/-- `handleSwitchConversation` (`src/App.jsx` lines 399-422): point the
session at `convId`, clear the transient panels, then store the fetched
message list — `[]` when the fetch throws or the field is absent
(`fetched = none`). -/
def handleSwitchConversation (fetched : Option (List Message)) (convId : String)
    (mobile : Bool) (s : AppState) : AppState :=
  let s1 := { s with conversationId := some convId, showConversationList := false,
                     reasoningSteps := [], sourcesUsed := [], prompt := "",
                     llmError := "", searchResults := none,
                     conversationHistory := fetched.getD [] }
  if mobile then { s1 with sidebarOpen := false } else s1

/-- `handleImportConversation` (`src/App.jsx` lines 447-462): without a file
it returns; a parse or network failure only alerts (`importOk = false`); on
success the catalog is refreshed. -/
def handleImportConversation (hasFile importOk : Bool)
    (convs : Option (List ConvSummary)) (s : AppState) : AppState :=
  if !hasFile then s
  else if importOk then loadAllConversationsFx convs s
  else s

/-- `handleFileChange` (`src/App.jsx` lines 478-481): store
`e.target.files[0]` and clear the document error. -/
def handleFileChange (f : Option UploadFile) (s : AppState) : AppState :=
  { s with file := f, docError := "" }

/-- `handleDragOver` (`src/App.jsx` lines 560-563). -/
def handleDragOver (s : AppState) : AppState :=
  { s with dragOver := true }

/-- `handleDragLeave` (`src/App.jsx` lines 565-568). -/
def handleDragLeave (s : AppState) : AppState :=
  { s with dragOver := false }

/-- The synchronous part of `handleDrop` (`src/App.jsx` lines 570-582):
lower the drag flag and, when a file was dropped, store it and clear the
document error; the deferred `handleFileUpload` fires as its own step. -/
def handleDrop (f : Option UploadFile) (s : AppState) : AppState :=
  match f with
  | some file => { s with dragOver := false, file := some file, docError := "" }
  | none => { s with dragOver := false }

/-- The `onchange` of `handleFilePicker` (`src/App.jsx` lines 585-600):
when a file was picked, store it and clear the document error; the deferred
`handleFileUpload` fires as its own step. -/
def handleFilePicker (f : Option UploadFile) (s : AppState) : AppState :=
  match f with
  | some file => { s with file := some file, docError := "" }
  | none => s

/-- The prompt textarea binding (`src/App.jsx` line 1639, and the live
`setPrompt` prop of `ChatInterface`). -/
def setPromptInput (v : String) (s : AppState) : AppState :=
  { s with prompt := v }

/-- The tools-menu toggle (`src/App.jsx` line 1661, and the live
`setToolsMenuOpen` prop of `ChatInterface`). -/
def setToolsMenuOpenInput (b : Bool) (s : AppState) : AppState :=
  { s with toolsMenuOpen := b }

/-- The sidebar toggle button (`src/App.jsx` line 1499) and the mobile auto-close. -/
def setSidebarOpenInput (b : Bool) (s : AppState) : AppState :=
  { s with sidebarOpen := b }

/-- The Web Search toggle (`src/App.jsx` line 1687, and the live
`setIncludeSearch` prop of `ChatInterface`). -/
def setIncludeSearchInput (b : Bool) (s : AppState) : AppState :=
  { s with includeSearch := b }

/-- The Chain of Thought toggle (`src/App.jsx` line 1672, and the live
`setEnableChainOfThought` prop of `ChatInterface`). -/
def setEnableChainOfThoughtInput (b : Bool) (s : AppState) : AppState :=
  { s with enableChainOfThought := b }

/-- The selection/inclusion coupling invariant from the spec:
`includeDocument === true` implies a `selectedDocument` reference exists. -/
def docInvariant (s : AppState) : Prop :=
  s.includeDocument = true → s.selectedDocument ≠ none

instance (s : AppState) : Decidable (docInvariant s) := by
  unfold docInvariant; infer_instance

/-- One step of the composed program: every state-mutating event handler,
input binding and effect of `App.jsx` that is reachable in the rendered tree,
each at an arbitrary backend outcome and input.  The document controls of
the never-rendered `ConversationManager` and of the unwired `ChatInterface`
tools menu contribute no step (see `selectDocumentButton`). -/
inductive AppStep : AppState → AppState → Prop where
  | init (docs : Option (List Document)) (convs : Option (List ConvSummary))
      (now : Nat) (s : AppState) : AppStep s (initializeApp docs convs now s)
  | historyReload (msgs : Option (List Message)) (s : AppState) :
      AppStep s (loadConversationHistory msgs s)
  | startedFlag (s : AppState) : AppStep s (hasStartedConversationFx s)
  | promptSubmit (env : LlmEnv) (now nowB nowT : Nat) (s : AppState) :
      AppStep s (handlePromptSubmit env now nowB nowT s).1
  | standaloneSearch (env : Except AxiosErr SearchResponse) (s : AppState) :
      AppStep s (handleStandaloneSearch env s).1
  | clearConversation (env : ClearEnv) (s : AppState) :
      AppStep s (handleClearConversation env s).1
  | clearAllHistory (confirmed deleteOk : Bool) (now : Nat) (s : AppState) :
      AppStep s (handleClearAllHistory confirmed deleteOk now s)
  | newConversation (convs : Option (List ConvSummary)) (now : Nat) (mobile : Bool)
      (s : AppState) : AppStep s (handleNewConversation convs now mobile s)
  | switchConversation (fetched : Option (List Message)) (convId : String)
      (mobile : Bool) (s : AppState) :
      AppStep s (handleSwitchConversation fetched convId mobile s)
  | importConversation (hasFile importOk : Bool) (convs : Option (List ConvSummary))
      (s : AppState) : AppStep s (handleImportConversation hasFile importOk convs s)
  | fileChange (f : Option UploadFile) (s : AppState) :
      AppStep s (handleFileChange f s)
  | fileUpload (env : UploadEnv) (s : AppState) :
      AppStep s (handleFileUpload env s).1
  | deleteDocument (env : DeleteDocEnv) (docId : String) (s : AppState) :
      AppStep s (handleDeleteDocument env docId s).1
  | selectDocument (doc : Document) (s : AppState) :
      AppStep s (selectDocumentButton doc s)
  | dragOver (s : AppState) : AppStep s (handleDragOver s)
  | dragLeave (s : AppState) : AppStep s (handleDragLeave s)
  | drop (f : Option UploadFile) (s : AppState) : AppStep s (handleDrop f s)
  | filePicker (f : Option UploadFile) (s : AppState) : AppStep s (handleFilePicker f s)
  | promptInput (v : String) (s : AppState) : AppStep s (setPromptInput v s)
  | toolsMenu (b : Bool) (s : AppState) : AppStep s (setToolsMenuOpenInput b s)
  | sidebar (b : Bool) (s : AppState) : AppStep s (setSidebarOpenInput b s)
  | includeSearchSet (b : Bool) (s : AppState) : AppStep s (setIncludeSearchInput b s)
  | chainOfThoughtSet (b : Bool) (s : AppState) : AppStep s (setEnableChainOfThoughtInput b s)

/-- States of the composed program: the initial render state and everything
`AppStep` reaches from it. -/
inductive Reachable : AppState → Prop where
  | start : Reachable initState
  | step {s s' : AppState} : Reachable s → AppStep s s' → Reachable s'

/-! ## Helper lemmas -/

theorem promptSubmitPrelude_fields (now : Nat) (s : AppState) :
    (promptSubmitPrelude now s).searchResults = none ∧
    (promptSubmitPrelude now s).reasoningSteps = [] ∧
    (promptSubmitPrelude now s).sourcesUsed = [] ∧
    (promptSubmitPrelude now s).llmError = "" ∧
    (promptSubmitPrelude now s).conversationHistory = s.conversationHistory ∧
    (promptSubmitPrelude now s).allConversations = s.allConversations := by
  cases h : jsTruthyS s.conversationId <;> simp [promptSubmitPrelude, h]

/-! ## Claims -/

/-- C3: for every empty or whitespace-only prompt string, both prompt
submission and standalone search are complete no-ops: no backend request is
issued and no piece of session state is modified. -/
theorem empty_prompt_noop (s : AppState) (env : LlmEnv)
    (envS : Except AxiosErr SearchResponse) (now nowB nowT : Nat)
    (h : jsTrim s.prompt = "") :
    handlePromptSubmit env now nowB nowT s = (s, []) ∧
    handleStandaloneSearch envS s = (s, []) := by
  simp [handlePromptSubmit, handleStandaloneSearch, h]

/-- Witness for C3: the whitespace-only prompt `"   "` on the initial state. -/
theorem empty_prompt_noop_witness :
    handlePromptSubmit
        { docContent := none, llmResult := .error .request, titleOk := false,
          convsAfterTitle := none, convsFinal := none } 0 0 0
        { initState with prompt := "   " } = ({ initState with prompt := "   " }, []) ∧
    handleStandaloneSearch (.error .request) { initState with prompt := "   " } =
        ({ initState with prompt := "   " }, []) :=
  empty_prompt_noop { initState with prompt := "   " } _ _ 0 0 0 (by decide)

/-- C10: uploading with no file selected issues no backend request and only
sets the document error slot to the fixed message; every other state slot is
untouched. -/
theorem upload_no_file (env : UploadEnv) (s : AppState) (h : s.file = none) :
    handleFileUpload env s = ({ s with docError := "Please select a file first" }, []) := by
  simp [handleFileUpload, h]

/-- Witness for C10: the initial state (no file selected). -/
theorem upload_no_file_witness :
    handleFileUpload
        { uploadResult := .error .request, docsRefresh := none, docsList := .error .request }
        initState = ({ initState with docError := "Please select a file first" }, []) :=
  upload_no_file _ initState rfl

/-- C5: on a successful document deletion, if the deleted id matches the
current selection both the selection and the inclusion flag are cleared;
otherwise both are left untouched. -/
theorem delete_document_selection (env : DeleteDocEnv) (docId : String) (s : AppState)
    (h : env.deleteOk = true) :
    ((handleDeleteDocument env docId s).1.selectedDocument,
     (handleDeleteDocument env docId s).1.includeDocument) =
      if selectedMatches s.selectedDocument docId then (none, false)
      else (s.selectedDocument, s.includeDocument) := by
  cases hm : selectedMatches s.selectedDocument docId <;>
    simp [handleDeleteDocument, h, hm]

/-- Witness for C5: deleting the selected document `d1` clears selection and
flag. -/
theorem delete_document_selection_witness :
    ((handleDeleteDocument { deleteOk := true, docs := none } "d1"
        { initState with selectedDocument := some ⟨"d1", "a.txt"⟩,
                         includeDocument := true }).1.selectedDocument,
     (handleDeleteDocument { deleteOk := true, docs := none } "d1"
        { initState with selectedDocument := some ⟨"d1", "a.txt"⟩,
                         includeDocument := true }).1.includeDocument) =
      if selectedMatches (some ⟨"d1", "a.txt"⟩) "d1" then (none, false)
      else (some ⟨"d1", "a.txt"⟩, true) :=
  delete_document_selection _ "d1" _ rfl

theorem request_error_ne_network (m : String) :
    "Request error: " ++ m ≠ "Network error: Unable to reach server" := by
  intro h
  have h1 : ("Request error: " ++ m).data.head? = some 'R' := by
    rw [String.data_append, List.head?_append_of_ne_nil] <;> decide
  rw [h] at h1
  exact absurd h1 (by decide)

theorem docInvariant_mono (s s' : AppState)
    (hsel : s'.selectedDocument = s.selectedDocument)
    (hinc : s'.includeDocument = s.includeDocument)
    (h : docInvariant s) : docInvariant s' := by
  unfold docInvariant at *
  rw [hsel, hinc]
  exact h

theorem promptSubmit_doc_fields (env : LlmEnv) (now nowB nowT : Nat) (s : AppState) :
    (handlePromptSubmit env now nowB nowT s).1.selectedDocument = s.selectedDocument ∧
    (handlePromptSubmit env now nowB nowT s).1.includeDocument = s.includeDocument := by
  by_cases h : jsTrim s.prompt = ""
  · simp [handlePromptSubmit, h]
  · cases he : env.llmResult with
    | error e =>
        cases hc : jsTruthyS s.conversationId <;>
          simp [handlePromptSubmit, promptSubmitRequestPhase, promptSubmitPrelude,
                h, he, hc]
    | ok resp =>
        cases hsr : resp.search_results <;> cases hrs : resp.reasoning_steps <;>
          cases hsu : resp.sources_used <;>
          by_cases hlen : (resp.updated_context.getD []).length = 2 <;>
          cases ht : env.titleOk <;> cases hc : jsTruthyS s.conversationId <;>
          simp [handlePromptSubmit, promptSubmitRequestPhase, promptSubmitPrelude,
                loadAllConversationsFx, h, he, hsr, hrs, hsu, hlen, ht, hc]

/-- C4: whenever `includeDocument` is true a `selectedDocument` reference
exists: every live operation preserves the coupling invariant (upload
auto-select and the manual select button set the pair together, deletion of
the selected document clears it together, everything else leaves it alone),
and since the initial state satisfies it, no reachable state of the composed
program has `includeDocument === true` with `selectedDocument` absent. -/
theorem doc_selection_coupling_invariant :
    (∀ s s', docInvariant s → AppStep s s' → docInvariant s') ∧
    (∀ s, Reachable s → docInvariant s) := by
  have hstep : ∀ s s', docInvariant s → AppStep s s' → docInvariant s' := by
    intro s s' h hst
    cases hst with
    | init docs convs now =>
        exact docInvariant_mono s _ (by simp [initializeApp, loadAllConversationsFx])
          (by simp [initializeApp, loadAllConversationsFx]) h
    | historyReload msgs =>
        exact docInvariant_mono s _ (by simp [loadConversationHistory])
          (by simp [loadConversationHistory]) h
    | startedFlag =>
        exact docInvariant_mono s _ (by simp [hasStartedConversationFx])
          (by simp [hasStartedConversationFx]) h
    | promptSubmit env now nowB nowT =>
        obtain ⟨h1, h2⟩ := promptSubmit_doc_fields env now nowB nowT s
        exact docInvariant_mono s _ h1 h2 h
    | standaloneSearch env =>
        refine docInvariant_mono s _ ?_ ?_ h <;>
          cases env <;> by_cases ht : jsTrim s.prompt = "" <;>
          simp [handleStandaloneSearch, ht]
    | clearConversation env =>
        refine docInvariant_mono s _ ?_ ?_ h <;>
          cases hc : jsTruthyS s.conversationId <;> cases hd : env.deleteOk <;>
          simp [handleClearConversation, loadAllConversationsFx, hc, hd]
    | clearAllHistory confirmed deleteOk now =>
        refine docInvariant_mono s _ ?_ ?_ h <;>
          cases confirmed <;> cases deleteOk <;> simp [handleClearAllHistory]
    | newConversation convs now mobile =>
        refine docInvariant_mono s _ ?_ ?_ h <;>
          cases mobile <;>
          by_cases hc : (0 < s.conversationHistory.length ∧
                         jsTruthyS s.conversationId = true) <;>
          simp [handleNewConversation, loadAllConversationsFx, hc]
    | switchConversation fetched convId mobile =>
        refine docInvariant_mono s _ ?_ ?_ h <;>
          cases mobile <;> simp [handleSwitchConversation]
    | importConversation hasFile importOk convs =>
        refine docInvariant_mono s _ ?_ ?_ h <;>
          cases hasFile <;> cases importOk <;>
          simp [handleImportConversation, loadAllConversationsFx]
    | fileChange f =>
        exact docInvariant_mono s _ (by simp [handleFileChange])
          (by simp [handleFileChange]) h
    | fileUpload env =>
        unfold docInvariant at h
        cases hf : s.file with
        | none => simpa [handleFileUpload, hf, docInvariant] using h
        | some f =>
          cases hu : env.uploadResult with
          | error e => simpa [handleFileUpload, hf, hu, docInvariant] using h
          | ok text =>
            cases hl : env.docsList with
            | error e => simpa [handleFileUpload, hf, hu, hl, docInvariant] using h
            | ok docs =>
              cases hg : docs.getLast? with
              | none => simpa [handleFileUpload, hf, hu, hl, hg, docInvariant] using h
              | some latest => simp [handleFileUpload, hf, hu, hl, hg, docInvariant]
    | deleteDocument env docId =>
        unfold docInvariant at h
        cases hd : env.deleteOk with
        | false => simpa [handleDeleteDocument, hd, docInvariant] using h
        | true =>
          cases hm : selectedMatches s.selectedDocument docId with
          | false => simpa [handleDeleteDocument, hd, hm, docInvariant] using h
          | true => simp [handleDeleteDocument, hd, hm, docInvariant]
    | selectDocument doc =>
        simp [selectDocumentButton, docInvariant]
    | dragOver =>
        exact docInvariant_mono s _ (by simp [handleDragOver])
          (by simp [handleDragOver]) h
    | dragLeave =>
        exact docInvariant_mono s _ (by simp [handleDragLeave])
          (by simp [handleDragLeave]) h
    | drop f =>
        refine docInvariant_mono s _ ?_ ?_ h <;>
          cases f <;> simp [handleDrop]
    | filePicker f =>
        refine docInvariant_mono s _ ?_ ?_ h <;>
          cases f <;> simp [handleFilePicker]
    | promptInput v =>
        exact docInvariant_mono s _ (by simp [setPromptInput])
          (by simp [setPromptInput]) h
    | toolsMenu b =>
        exact docInvariant_mono s _ (by simp [setToolsMenuOpenInput])
          (by simp [setToolsMenuOpenInput]) h
    | sidebar b =>
        exact docInvariant_mono s _ (by simp [setSidebarOpenInput])
          (by simp [setSidebarOpenInput]) h
    | includeSearchSet b =>
        exact docInvariant_mono s _ (by simp [setIncludeSearchInput])
          (by simp [setIncludeSearchInput]) h
    | chainOfThoughtSet b =>
        exact docInvariant_mono s _ (by simp [setEnableChainOfThoughtInput])
          (by simp [setEnableChainOfThoughtInput]) h
  refine ⟨hstep, ?_⟩
  intro s hr
  induction hr with
  | start => decide
  | step hr hst ih => exact hstep _ _ ih hst

/-- Witness for C4: the state reached by selecting document `d1` from the
initial state satisfies the invariant. -/
theorem doc_selection_coupling_invariant_witness :
    docInvariant (selectDocumentButton ⟨"d1", "a.txt"⟩ initState) :=
  doc_selection_coupling_invariant.2 _
    (Reachable.step Reachable.start (AppStep.selectDocument ⟨"d1", "a.txt"⟩ initState))

/-- C6 counterexample: with an active conversation and a message present, a
failed backend deletion leaves the handler state completely unchanged — the
local message list is not reset to empty. -/
theorem clear_conversation_failure_no_reset :
    (handleClearConversation { deleteOk := false, convs := none }
        { initState with conversationId := some "conv1",
                         conversationHistory := [{ role := "user", content := "hi" }] }).1.conversationHistory
      ≠ [] ∧
    handleClearConversation { deleteOk := false, convs := none }
        { initState with conversationId := some "conv1",
                         conversationHistory := [{ role := "user", content := "hi" }] }
      = ({ initState with conversationId := some "conv1",
                          conversationHistory := [{ role := "user", content := "hi" }] },
         [Request.deleteConversation "conv1"]) := by
  decide

/-- C6 amended: with an active conversation id, a successful backend deletion
resets the local message list to empty (clearing prompt, LLM error and the
transient panels, and refreshing the catalog); a failed deletion is only
logged and the handler leaves all local state unchanged — the local reset
happens only on backend success. -/
theorem clear_conversation_local_reset (env : ClearEnv) (s : AppState)
    (h : jsTruthyS s.conversationId = true) :
    (env.deleteOk = true →
       (handleClearConversation env s).1 =
         loadAllConversationsFx env.convs
           { s with conversationHistory := [], prompt := "", llmError := "",
                    searchResults := none, reasoningSteps := [], sourcesUsed := [],
                    hasStartedConversation := false }) ∧
    (env.deleteOk = false →
       handleClearConversation env s =
         (s, [Request.deleteConversation (s.conversationId.getD "")])) := by
  cases hd : env.deleteOk <;> simp [handleClearConversation, h, hd]

/-- Witness for the amended C6: successful deletion on a one-message
conversation. -/
theorem clear_conversation_local_reset_witness :
    ((true : Bool) = true →
       (handleClearConversation { deleteOk := true, convs := some [] }
            { initState with conversationId := some "conv1",
                             conversationHistory := [{ role := "user", content := "hi" }] }).1 =
         loadAllConversationsFx (some [])
           { { initState with conversationId := some "conv1",
                              conversationHistory := [{ role := "user", content := "hi" }] } with
             conversationHistory := [], prompt := "", llmError := "",
             searchResults := none, reasoningSteps := [], sourcesUsed := [],
             hasStartedConversation := false }) ∧
    ((true : Bool) = false →
       handleClearConversation { deleteOk := true, convs := some [] }
            { initState with conversationId := some "conv1",
                             conversationHistory := [{ role := "user", content := "hi" }] } =
         ({ initState with conversationId := some "conv1",
                           conversationHistory := [{ role := "user", content := "hi" }] },
          [Request.deleteConversation ((some "conv1").getD "")])) :=
  clear_conversation_local_reset { deleteOk := true, convs := some [] } _ (by decide)

/-- C7 counterexample: in the standalone-search category a
transport-unreachable failure and a local-construction failure surface the
identical message, so the two kinds are not distinguishable there. -/
theorem search_error_kinds_indistinct :
    (handleStandaloneSearch (.error AxiosErr.request)
        { initState with prompt := "q" }).1.searchError =
      (handleStandaloneSearch (.error (AxiosErr.other "boom"))
        { initState with prompt := "q" }).1.searchError ∧
    (handleStandaloneSearch (.error AxiosErr.request)
        { initState with prompt := "q" }).1.searchError =
      "Search failed: Unable to reach server" := by
  decide

/-- C7 amended: LLM submission and document upload classify failures into the
three kinds with three distinct messages (`Server error:` prefix, the fixed
network message, `Request error:` prefix), and local-construction is
distinguishable from transport-unreachable there; standalone search only
distinguishes server-reported failures (`Search error:` prefix) — every other
failure, transport-unreachable or local-construction alike, surfaces the same
fixed message. -/
theorem error_classification_by_category :
    (∀ d st, ∃ rest, classifyLlmError (.response d st) = "Server error: " ++ rest) ∧
    classifyLlmError .request = "Network error: Unable to reach server" ∧
    (∀ m, classifyLlmError (.other m) = "Request error: " ++ m) ∧
    (∀ m, classifyLlmError (.other m) ≠ classifyLlmError .request) ∧
    (∀ e, classifyDocError e = classifyLlmError e) ∧
    (∀ d st, ∃ rest, classifySearchError (.response d st) = "Search error: " ++ rest) ∧
    classifySearchError .request = "Search failed: Unable to reach server" ∧
    (∀ m, classifySearchError (.other m) = classifySearchError .request) := by
  refine ⟨fun d st => ⟨jsOrS d st, rfl⟩, rfl, fun m => rfl, ?_,
          fun e => by cases e <;> rfl,
          fun d st => ⟨jsOrS d st, rfl⟩, rfl, fun m => rfl⟩
  intro m
  exact request_error_ne_network m

/-- C8: for every standalone search with a non-empty trimmed query, exactly
one request is issued and it carries the fixed max-results count 5; on
success the separate search-results collection is populated, on failure the
separate search-error slot is populated, and in both outcomes the
conversation message list is unchanged. -/
theorem standalone_search_contract (env : Except AxiosErr SearchResponse) (s : AppState)
    (h : jsTrim s.prompt ≠ "") :
    (handleStandaloneSearch env s).2 = [Request.search s.prompt 5] ∧
    (handleStandaloneSearch env s).1.conversationHistory = s.conversationHistory ∧
    (∀ resp, env = .ok resp →
        (handleStandaloneSearch env s).1.searchResults = some resp.results) ∧
    (∀ e, env = .error e →
        (handleStandaloneSearch env s).1.searchError = classifySearchError e) := by
  cases env <;> simp [handleStandaloneSearch, h]

/-- Witness for C8: the query `"climate change 2024"` with one returned
result. -/
theorem standalone_search_contract_witness :
    (handleStandaloneSearch (.ok ⟨[⟨"t", "u", "d"⟩]⟩)
        { initState with prompt := "climate change 2024" }).2 =
      [Request.search "climate change 2024" 5] ∧
    (handleStandaloneSearch (.ok ⟨[⟨"t", "u", "d"⟩]⟩)
        { initState with prompt := "climate change 2024" }).1.conversationHistory =
      ({ initState with prompt := "climate change 2024" } : AppState).conversationHistory ∧
    (∀ resp, (Except.ok (ε := AxiosErr) (⟨[⟨"t", "u", "d"⟩]⟩ : SearchResponse)) = .ok resp →
        (handleStandaloneSearch (.ok ⟨[⟨"t", "u", "d"⟩]⟩)
            { initState with prompt := "climate change 2024" }).1.searchResults =
          some resp.results) ∧
    (∀ e, (Except.ok (ε := AxiosErr) (⟨[⟨"t", "u", "d"⟩]⟩ : SearchResponse)) = .error e →
        (handleStandaloneSearch (.ok ⟨[⟨"t", "u", "d"⟩]⟩)
            { initState with prompt := "climate change 2024" }).1.searchError =
          classifySearchError e) :=
  standalone_search_contract (.ok ⟨[⟨"t", "u", "d"⟩]⟩)
    { initState with prompt := "climate change 2024" } (by decide)

/-- A concrete environment where the LLM call fails with a network error and
every auxiliary call fails too; used to instantiate hypotheses at concrete
inputs. -/
def envNetFail : LlmEnv :=
  { docContent := none, llmResult := .error .request, titleOk := false,
    convsAfterTitle := none, convsFinal := none }

/-- A concrete state with the prompt `"hello"`. -/
def sHello : AppState := { initState with prompt := "hello" }

/-- C1: for every submission with a non-empty trimmed prompt, the previous
search results, reasoning steps, sources-used and LLM error are cleared in
the prelude state, the request phase runs on exactly that cleared state, and
the LLM loading flag is false after the call settles on every exit path
(success, server error, network error and thrown exception). -/
theorem prompt_submit_clears_then_settles (env : LlmEnv) (now nowB nowT : Nat)
    (s : AppState) (h : jsTrim s.prompt ≠ "") :
    (promptSubmitPrelude now s).searchResults = none ∧
    (promptSubmitPrelude now s).reasoningSteps = [] ∧
    (promptSubmitPrelude now s).sourcesUsed = [] ∧
    (promptSubmitPrelude now s).llmError = "" ∧
    handlePromptSubmit env now nowB nowT s =
      promptSubmitRequestPhase env nowB nowT s (promptSubmitPrelude now s) ∧
    (handlePromptSubmit env now nowB nowT s).1.llmLoading = false := by
  obtain ⟨h1, h2, h3, h4, -, -⟩ := promptSubmitPrelude_fields now s
  refine ⟨h1, h2, h3, h4, by simp [handlePromptSubmit, h], ?_⟩
  cases he : env.llmResult <;>
    simp [handlePromptSubmit, promptSubmitRequestPhase, h, he]

/-- Witness for C1: the prompt `"hello"` under a network failure. -/
theorem prompt_submit_clears_then_settles_witness :
    (promptSubmitPrelude 0 sHello).searchResults = none ∧
    (promptSubmitPrelude 0 sHello).reasoningSteps = [] ∧
    (promptSubmitPrelude 0 sHello).sourcesUsed = [] ∧
    (promptSubmitPrelude 0 sHello).llmError = "" ∧
    handlePromptSubmit envNetFail 0 0 0 sHello =
      promptSubmitRequestPhase envNetFail 0 0 sHello (promptSubmitPrelude 0 sHello) ∧
    (handlePromptSubmit envNetFail 0 0 0 sHello).1.llmLoading = false :=
  prompt_submit_clears_then_settles envNetFail 0 0 0 sHello (by decide)

/-- C2: when the LLM call fails (server-reported, network-unreachable or
request-construction), the resulting state is exactly the prelude state with
only the LLM error slot filled by the classified message (and the loading
flag lowered); in particular the conversation message list is unchanged. -/
theorem prompt_submit_failure_frame (env : LlmEnv) (now nowB nowT : Nat) (s : AppState)
    (e : AxiosErr) (h : jsTrim s.prompt ≠ "") (he : env.llmResult = .error e) :
    (handlePromptSubmit env now nowB nowT s).1 =
      { promptSubmitPrelude now s with
        llmError := classifyLlmError e, llmLoading := false } ∧
    (handlePromptSubmit env now nowB nowT s).1.conversationHistory =
      s.conversationHistory := by
  obtain ⟨-, -, -, -, hist, -⟩ := promptSubmitPrelude_fields now s
  refine ⟨?_, ?_⟩ <;> simp [handlePromptSubmit, promptSubmitRequestPhase, h, he, hist]

/-- Witness for C2: the prompt `"hello"` under a network failure. -/
theorem prompt_submit_failure_frame_witness :
    (handlePromptSubmit envNetFail 0 0 0 sHello).1 =
      { promptSubmitPrelude 0 sHello with
        llmError := classifyLlmError .request, llmLoading := false } ∧
    (handlePromptSubmit envNetFail 0 0 0 sHello).1.conversationHistory =
      sHello.conversationHistory :=
  prompt_submit_failure_frame envNetFail 0 0 0 sHello .request (by decide) rfl

theorem promptSubmit_ok_history (env : LlmEnv) (now nowB nowT : Nat) (s : AppState)
    (resp : LlmResponse) (h : jsTrim s.prompt ≠ "") (he : env.llmResult = .ok resp) :
    (handlePromptSubmit env now nowB nowT s).1.conversationHistory =
      resp.updated_context.getD [] := by
  cases hsr : resp.search_results <;> cases hrs : resp.reasoning_steps <;>
    cases hsu : resp.sources_used <;>
    by_cases hlen : (resp.updated_context.getD []).length = 2 <;>
    cases ht : env.titleOk <;>
    simp [handlePromptSubmit, promptSubmitRequestPhase, loadAllConversationsFx,
          h, he, hsr, hrs, hsu, hlen, ht]

/-- C9: with document inclusion enabled and a document selected, a failed
content fetch does not abort the submission: the built request body carries
no document context, the LLM request is still issued right after the
content-fetch call, and the rest of the contract proceeds (message-list
replacement on success, error classification and unchanged message list on
failure, loading flag lowered). -/
theorem doc_fetch_failure_degrades (env : LlmEnv) (now nowB nowT : Nat) (s : AppState)
    (d : Document) (h : jsTrim s.prompt ≠ "") (hinc : s.includeDocument = true)
    (hsel : s.selectedDocument = some d) (hfail : env.docContent = none) :
    (llmBodyFor env nowB s).document_context = none ∧
    (∃ rest, (handlePromptSubmit env now nowB nowT s).2 =
        Request.getDocument d.document_id :: Request.llm (llmBodyFor env nowB s) :: rest) ∧
    (∀ resp, env.llmResult = .ok resp →
        (handlePromptSubmit env now nowB nowT s).1.conversationHistory =
          resp.updated_context.getD []) ∧
    (∀ e, env.llmResult = .error e →
        (handlePromptSubmit env now nowB nowT s).1.llmError = classifyLlmError e ∧
        (handlePromptSubmit env now nowB nowT s).1.conversationHistory =
          s.conversationHistory) ∧
    (handlePromptSubmit env now nowB nowT s).1.llmLoading = false := by
  obtain ⟨-, -, -, -, hist, -⟩ := promptSubmitPrelude_fields now s
  refine ⟨?_, ?_, ?_, ?_, ?_⟩
  · simp [llmBodyFor, llmDocumentContext, hinc, hsel, hfail, jsTruthyS]
  · cases he : env.llmResult with
    | error e =>
        exact ⟨[], by
          simp [handlePromptSubmit, promptSubmitRequestPhase, h, he, hinc, hsel]⟩
    | ok resp =>
        refine ⟨(if (resp.updated_context.getD []).length = 2 then
                   (if env.titleOk then
                      [Request.autoTitle (jsOrS s.conversationId (mkConvId nowT)),
                       Request.listConversations]
                    else [Request.autoTitle (jsOrS s.conversationId (mkConvId nowT))])
                 else []) ++ [Request.listConversations], ?_⟩
        by_cases hlen : (resp.updated_context.getD []).length = 2 <;>
          cases ht : env.titleOk <;>
          simp [handlePromptSubmit, promptSubmitRequestPhase, h, he, hinc, hsel,
                hlen, ht]
  · intro resp he
    exact promptSubmit_ok_history env now nowB nowT s resp h he
  · intro e he
    refine ⟨?_, ?_⟩ <;>
      simp [handlePromptSubmit, promptSubmitRequestPhase, h, he, hist]
  · cases he : env.llmResult <;>
      simp [handlePromptSubmit, promptSubmitRequestPhase, h, he]

/-- Witness for C9: document `d1` selected and included, content fetch
failing, LLM call failing with a network error. -/
theorem doc_fetch_failure_degrades_witness :
    (llmBodyFor envNetFail 0
        { initState with prompt := "hello", includeDocument := true,
                         selectedDocument := some ⟨"d1", "a.txt"⟩ }).document_context
      = none ∧
    (∃ rest, (handlePromptSubmit envNetFail 0 0 0
        { initState with prompt := "hello", includeDocument := true,
                         selectedDocument := some ⟨"d1", "a.txt"⟩ }).2 =
        Request.getDocument (Document.document_id ⟨"d1", "a.txt"⟩) ::
          Request.llm (llmBodyFor envNetFail 0
            { initState with prompt := "hello", includeDocument := true,
                             selectedDocument := some ⟨"d1", "a.txt"⟩ }) :: rest) ∧
    (∀ resp, envNetFail.llmResult = .ok resp →
        (handlePromptSubmit envNetFail 0 0 0
            { initState with prompt := "hello", includeDocument := true,
                             selectedDocument := some ⟨"d1", "a.txt"⟩ }).1.conversationHistory =
          resp.updated_context.getD []) ∧
    (∀ e, envNetFail.llmResult = .error e →
        (handlePromptSubmit envNetFail 0 0 0
            { initState with prompt := "hello", includeDocument := true,
                             selectedDocument := some ⟨"d1", "a.txt"⟩ }).1.llmError =
          classifyLlmError e ∧
        (handlePromptSubmit envNetFail 0 0 0
            { initState with prompt := "hello", includeDocument := true,
                             selectedDocument := some ⟨"d1", "a.txt"⟩ }).1.conversationHistory =
          ({ initState with prompt := "hello", includeDocument := true,
                            selectedDocument := some ⟨"d1", "a.txt"⟩ } : AppState).conversationHistory) ∧
    (handlePromptSubmit envNetFail 0 0 0
        { initState with prompt := "hello", includeDocument := true,
                         selectedDocument := some ⟨"d1", "a.txt"⟩ }).1.llmLoading = false :=
  doc_fetch_failure_degrades envNetFail 0 0 0
    { initState with prompt := "hello", includeDocument := true,
                     selectedDocument := some ⟨"d1", "a.txt"⟩ }
    ⟨"d1", "a.txt"⟩ (by decide) rfl rfl rfl
